import Mathlib

/-!
Verification of the patent_hub client-side form scripts.

Shallow embedding of the button-gating, expiry-checking and
backend-invoker logic found in the doctype scripts.  JavaScript values
that may be `undefined`/`null` are modelled with `Option`; JS truthiness
of strings/numbers is modelled explicitly; machine time is modelled as
epoch milliseconds (`Int`).
-/

namespace PatentHub

/-- A JS value used as a timestamp field: it may be `undefined`/`null`,
a datetime string, or a number (epoch milliseconds). -/
inductive JSTime where
  | undef : JSTime
  | str (s : String) : JSTime
  | num (n : Int) : JSTime
deriving DecidableEq, Repr

/-- JS falsiness of a `JSTime` value (`!generated_at` in the source):
`undefined`/`null`, the empty string and the number 0 are falsy. -/
def JSTime.falsy : JSTime → Bool
  | .undef => true
  | .str s => s == ""
  | .num n => n == 0

/-- JS truthiness of an optional string (`!!x`): `undefined` and the
empty string are falsy. -/
def jsStrTruthy : Option String → Bool
  | none => false
  | some s => !(s == "")

/-- JS `String.prototype.trim`: strip whitespace from both ends,
written structurally over the character list. -/
def jsTrim (s : String) : List Char :=
  ((s.data.dropWhile Char.isWhitespace).reverse.dropWhile
    Char.isWhitespace).reverse

/-- JS truthiness of `x?.trim?.()` for an optional string field
(used as `!!frm.doc.md?.trim?.()` etc. in the source): truthy iff the
field is present and not whitespace-only. -/
def jsTrimTruthy : Option String → Bool
  | none => false
  | some s => !(jsTrim s).isEmpty

/-- Output of a task-status gate: the enablement of the three task
buttons (the arguments passed to the toggle helper for the
call/rerun/cancel buttons). -/
structure GateOut where
  run : Bool
  rerun : Bool
  cancel : Bool
deriving DecidableEq, Repr

/-- The button policy as the specification words it (section 4.1):
if `success_count > 0` then `run=false`, `rerun = has AND NOT running`,
`cancel = running`; else `run = has AND NOT running AND NOT done`,
`rerun=false`, `cancel = running`.  Written from the spec for
comparison with the source gates. -/
def spec_button_policy (is_running is_done : Bool) (success_count : Nat)
    (has_required_inputs : Bool) : GateOut :=
  if success_count > 0 then
    { run := false
      rerun := has_required_inputs && !is_running
      cancel := is_running }
  else
    { run := has_required_inputs && !is_running && !is_done
      rerun := false
      cancel := is_running }

/-- The fields of a `Md2docx` document read by `update_md2docx_buttons`
(src/unnamed/part_002).  `success_count_md2docx` is optional because the
source defends with `|| 0`. -/
structure Md2docxDoc where
  is_running_md2docx : Int
  is_done_md2docx : Int
  success_count_md2docx : Option Nat
  md : Option String
deriving DecidableEq, Repr

/-- Embedding of `update_md2docx_buttons` (src/unnamed/part_002,
lines 29-52): reads `is_running`/`is_done` as `=== 1`, defaults the
success count with `|| 0`, derives `has_md` from `!!md?.trim?.()`, and
branches on `has_ever_succeeded = success_count > 0`. -/
def update_md2docx_buttons (doc : Md2docxDoc) : GateOut :=
  let is_running := doc.is_running_md2docx == 1
  let is_done := doc.is_done_md2docx == 1
  let success_count := doc.success_count_md2docx.getD 0
  let has_md := jsTrimTruthy doc.md
  let has_ever_succeeded := success_count > 0
  if has_ever_succeeded then
    { run := false
      rerun := has_md && !is_running
      cancel := is_running }
  else
    { run := has_md && !is_running && !is_done
      rerun := false
      cancel := is_running }

/-- A row of an upload child table; `file` is the designated sub-field
(`row?.file` in the source). -/
structure UploadRow where
  file : Option String
deriving DecidableEq, Repr

/-- Embedding of `has_uploaded_file` (src/unnamed/part_009, lines
60-62): `Array.isArray(rows) && rows.some(row => !!row?.file)`.  A
missing (`undefined`) table is not an array, hence `false`. -/
def has_uploaded_file : Option (List UploadRow) → Bool
  | none => false
  | some rows => rows.any (fun row => jsStrTruthy row.file)

/-- The fields of a `Patentability` document read by
`update_patentability_buttons` (src/unnamed/part_009). -/
structure PatentabilityDoc where
  is_running_patentability : Int
  is_done_patentability : Int
  success_count_patentability : Option Nat
  patent_title : Option String
  table_upload_patentability : Option (List UploadRow)
deriving DecidableEq, Repr

/-- Embedding of `update_patentability_buttons` (src/unnamed/part_009,
lines 34-58): `has_value = has_title AND has_upload_file`, then the
same two-branch policy on `success_count > 0`. -/
def update_patentability_buttons (doc : PatentabilityDoc) : GateOut :=
  let is_running := doc.is_running_patentability == 1
  let is_done := doc.is_done_patentability == 1
  let success_count := doc.success_count_patentability.getD 0
  let has_title := jsTrimTruthy doc.patent_title
  let has_upload_file := has_uploaded_file doc.table_upload_patentability
  let has_value := has_title && has_upload_file
  let has_ever_succeeded := success_count > 0
  if has_ever_succeeded then
    { run := false
      rerun := has_value && !is_running
      cancel := is_running }
  else
    { run := has_value && !is_running && !is_done
      rerun := false
      cancel := is_running }

/-- A prerequisite field of a Patent Workflow step: either a scalar
text field or a child table (the source distinguishes them with
`field.startsWith("table_")`). -/
inductive PrereqField where
  | scalar (s : Option String) : PrereqField
  | table (rows : Option (List UploadRow)) : PrereqField
deriving DecidableEq, Repr

/-- The `has_value` computation of `update_step_buttons`
(src/patent_hub/patent_hub/doctype/patent_workflow/patent_workflow.js,
lines 106-109): a table field only needs `Array.isArray(v) &&
v.length > 0`; a scalar field needs `!!v?.trim?.()`. -/
def step_has_value : PrereqField → Bool
  | .scalar s => jsTrimTruthy s
  | .table none => false
  | .table (some rows) => rows.length > 0

/-- Embedding of the per-step body of `update_step_buttons`
(patent_workflow.js, lines 102-115): for one step with raw flag fields
`is_running_<step>` and `is_done_<step>` and its mapped prerequisite
field, the three toggle calls receive
`has_value && !is_running && !is_done`,
`has_value && !is_running && is_done`, and `is_running`. -/
def update_step_buttons_for (is_running_raw is_done_raw : Int)
    (field : PrereqField) : GateOut :=
  let is_running := is_running_raw == 1
  let is_done := is_done_raw == 1
  let has_value := step_has_value field
  { run := has_value && !is_running && !is_done
    rerun := has_value && !is_running && is_done
    cancel := is_running }

/-! ### Signed-URL expiry -/

/-- Embedding of `is_url_expired` (src/unnamed/part_010, lines 151-175,
and the textually identical function in
src/patent_hub/patent_hub/doctype/upload_final_docx/upload_final_docx.js,
lines 115-130).  `str_to_obj` stands for the framework's
`frappe.datetime.str_to_obj` date parser (external), returning epoch
milliseconds; `nowMs` is the current time in epoch milliseconds.  The
source computes `diffHours = diffMs / 3600000` in floating point and
returns `diffHours >= 1`; for the integer millisecond differences
involved the float quotient is `>= 1` exactly when `diffMs >= 3600000`
(the quotient of the division is over 2.7e-7 away from 1 whenever
`diffMs` differs from 3600000, far beyond one ulp), so the comparison
is rendered exactly on integers. -/
def is_url_expired (str_to_obj : String → Int) (generated_at : JSTime)
    (nowMs : Int) : Bool :=
  if generated_at.falsy then true
  else
    let generated : Int :=
      match generated_at with
      | .str s => str_to_obj s
      | .num n => n
      | .undef => 0
    let diffMs := nowMs - generated
    decide (3600000 ≤ diffMs)

/-- Embedding of the inline expiry check of `handle_download`
(src/patent_hub/patent_hub/doctype/claims_to_docx/01.js, lines
216-218): `expired = (now - generated_time) > (60 * 60 * 1000)`,
a strict comparison in milliseconds. -/
def claims_to_docx_expired (generatedMs nowMs : Int) : Bool :=
  decide (3600000 < nowMs - generatedMs)

/-! ### Click and download handlers -/

/-- A row of the `generated_files` child table. -/
structure GeneratedFile where
  s3_url : Option String
  signed_url : Option String
  signed_url_generated_at : JSTime
deriving DecidableEq, Repr

/-- Outcome of a click on the clickable signed-URL grid column. -/
inductive ClickAction where
  | alertInvalidUrl : ClickAction
  | alertExpired : ClickAction
  | openUrl (url : String) : ClickAction
deriving DecidableEq, Repr

/-- JS `String.prototype.startsWith`, written structurally over the
character lists. -/
def jsStartsWith (s pre : String) : Bool :=
  pre.data.isPrefixOf s.data

/-- The URL normalisation performed before `window.open`: prepend
`https://` unless the value already starts with a scheme. -/
def normalize_url (url : String) : String :=
  if jsStartsWith url "http://" || jsStartsWith url "https://" then url
  else "https://" ++ url

/-- Whether a click action dereferences (opens) a URL. -/
def ClickAction.opens : ClickAction → Bool
  | .openUrl _ => true
  | _ => false

/-- Embedding of the delegated click handler installed by
`setup_clickable_column` in src/unnamed/part_010 (lines 386-427, the
Claims To Docx variant): reject a falsy / empty / literal
`"undefined"` URL, then reject an expired `signed_url_generated_at`
via `is_url_expired`, then normalise the scheme and open. -/
def clickable_column_click_c2d (str_to_obj : String → Int) (nowMs : Int)
    (file : GeneratedFile) : ClickAction :=
  match file.signed_url with
  | none => .alertInvalidUrl
  | some url =>
    if url == "" || url == "undefined" then .alertInvalidUrl
    else if is_url_expired str_to_obj file.signed_url_generated_at nowMs then
      .alertExpired
    else .openUrl (normalize_url url)

/-- Embedding of the delegated click handler installed by
`setup_clickable_column` in
src/patent_hub/patent_hub/doctype/md_to_docx/md_to_docx.js (lines
150-181): it validates the URL exactly like the Claims To Docx variant
but performs NO expiry check before opening. -/
def clickable_column_click_md2docx (file : GeneratedFile) : ClickAction :=
  match file.signed_url with
  | none => .alertInvalidUrl
  | some url =>
    if url == "" || url == "undefined" then .alertInvalidUrl
    else .openUrl (normalize_url url)

/-- Outcome of a download-button click (`handle_download_click`,
src/unnamed/part_010). -/
inductive DownloadAction where
  | alertNoFile : DownloadAction
  | alertNotGenerated : DownloadAction
  | alertExpired : DownloadAction
  | download (url : String) : DownloadAction
deriving DecidableEq, Repr

/-- Whether a download action dereferences the signed URL. -/
def DownloadAction.opens : DownloadAction → Bool
  | .download _ => true
  | _ => false

/-- Embedding of `handle_download_click` (src/unnamed/part_010, lines
278-357) after file lookup: `file` is the result of
`find_file_by_type`.  A missing file alerts; a falsy `signed_url`
alerts "not generated"; an expired `signed_url_generated_at` (lines
305-313) alerts "expired"; otherwise the signed URL is opened. -/
def handle_download_click (str_to_obj : String → Int) (nowMs : Int)
    (file : Option GeneratedFile) : DownloadAction :=
  match file with
  | none => .alertNoFile
  | some f =>
    match f.signed_url with
    | none => .alertNotGenerated
    | some url =>
      if url == "" then .alertNotGenerated
      else if is_url_expired str_to_obj f.signed_url_generated_at nowMs then
        .alertExpired
      else .download url

/-! ### Backend invoker and cancellation traces -/

/-- An observable UI/RPC effect of an invoker wrapper, in order of
occurrence. -/
inductive Effect where
  | save : Effect
  | remoteCall : Effect
  | reload : Effect
  | alert (msg : String) : Effect
deriving DecidableEq, Repr

/-- Embedding of `run_step_backend` (patent_workflow.js, lines
149-179).  The wrapper is deterministic given the form's dirty state
and the outcomes of the awaited `frm.save()` and `frappe.call(...)`
(each `Except` error carries the JS error's optional `message`).
Inside `try`: save only when dirty (a save rejection jumps to
`catch`); then the remote call (a rejection jumps to `catch`); then
`frm.reload_doc()`.  The `catch` shows
`e.message || "运行 <label> 失败，请查看日志"`. -/
def run_step_backend (label : String) (is_dirty : Bool)
    (saveResult : Except (Option String) Unit)
    (callResult : Except (Option String) Unit) : List Effect :=
  let fail : Option String → List Effect := fun e =>
    [.alert (e.getD ("运行 " ++ label ++ " 失败，请查看日志"))]
  if is_dirty then
    match saveResult with
    | .error e => [.save] ++ fail e
    | .ok _ =>
      match callResult with
      | .error e => [.save, .remoteCall] ++ fail e
      | .ok _ => [.save, .remoteCall, .reload]
  else
    match callResult with
    | .error e => [.remoteCall] ++ fail e
    | .ok _ => [.remoteCall, .reload]

/-- Embedding of `run_md2docx_backend` (src/unnamed/part_002, lines
71-101) — textually identical control flow to `run_step_backend`. -/
def run_md2docx_backend (label : String) (is_dirty : Bool)
    (saveResult : Except (Option String) Unit)
    (callResult : Except (Option String) Unit) : List Effect :=
  let fail : Option String → List Effect := fun e =>
    [.alert (e.getD ("运行 " ++ label ++ " 失败，请查看日志"))]
  if is_dirty then
    match saveResult with
    | .error e => [.save] ++ fail e
    | .ok _ =>
      match callResult with
      | .error e => [.save, .remoteCall] ++ fail e
      | .ok _ => [.save, .remoteCall, .reload]
  else
    match callResult with
    | .error e => [.remoteCall] ++ fail e
    | .ok _ => [.remoteCall, .reload]

/-- Embedding of `cancel_step_backend` (patent_workflow.js, lines
184-207).  The awaited `frappe.call` either resolves with an optional
`r.message` (shown as an alert when truthy, then `reload_doc`) or
rejects (caught: alert `e.message || "终止 <label> 失败"`, and no
reload — the `await frm.reload_doc()` sits inside the `try`). -/
def cancel_step_backend (label : String)
    (callResult : Except (Option String) (Option String)) : List Effect :=
  match callResult with
  | .error e => [.remoteCall, .alert (e.getD ("终止 " ++ label ++ " 失败"))]
  | .ok msg =>
    [.remoteCall] ++
      (match msg with
       | some m => if m == "" then [] else [.alert m]
       | none => []) ++
    [.reload]

/-- Embedding of `cancel_patentability_backend` (src/unnamed/part_009,
lines 116-140) — identical control flow to `cancel_step_backend` (it
only passes an extra `doctype` argument to the same endpoint). -/
def cancel_patentability_backend (label : String)
    (callResult : Except (Option String) (Option String)) : List Effect :=
  match callResult with
  | .error e => [.remoteCall, .alert (e.getD ("终止 " ++ label ++ " 失败"))]
  | .ok msg =>
    [.remoteCall] ++
      (match msg with
       | some m => if m == "" then [] else [.alert m]
       | none => []) ++
    [.reload]

/-! ### Realtime binding guard -/

/-- The realtime-binding state carried on a form instance: the
`_realtime_bound` guard flag and, for each of the two channels, how
many handler copies are currently registered with
`frappe.realtime.on`. -/
structure FormRT where
  realtime_bound : Bool
  done_handlers : Nat
  failed_handlers : Nat
deriving DecidableEq, Repr

/-- A freshly opened form: `frm._realtime_bound` is `undefined`
(falsy) and no handlers are registered. -/
def initialFormRT : FormRT := ⟨false, 0, 0⟩

/-- Registering the two realtime handlers
(`bind_realtime_md2docx_events` in part_002 / the inline `on` calls in
md_to_docx.js lines 64-75): one more copy of each handler. -/
def bind_realtime_events (s : FormRT) : FormRT :=
  { s with
    done_handlers := s.done_handlers + 1
    failed_handlers := s.failed_handlers + 1 }

/-- The realtime-binding part of `refresh`
(src/patent_hub/patent_hub/doctype/md_to_docx/md_to_docx.js, lines
63-77, and src/unnamed/part_009, lines 8-13): bind and set the guard
only when `!frm._realtime_bound`. -/
def refresh_rt (s : FormRT) : FormRT :=
  if s.realtime_bound then s
  else { bind_realtime_events s with realtime_bound := true }

/-- Effect of one incoming `<task>_done` event carrying `docname`,
delivered to a form whose document is `formname`: every registered
handler copy runs, and each one shows its notification and reloads
only when `data.docname === frm.doc.name`.  Returns the number of
notification+reload pairs produced. -/
def handle_done_event (s : FormRT) (docname formname : String) : Nat :=
  if docname == formname then s.done_handlers else 0

/-! ### Button visual state -/

/-- The jQuery-visible state of a task button: membership of the three
style classes and the `disabled` property. -/
structure BtnClasses where
  btn_primary : Bool
  btn_danger : Bool
  btn_default : Bool
  disabled : Bool
deriving DecidableEq, Repr

/-- Embedding of `toggle_button_state` (patent_workflow.js, lines
121-130) and the textually identical `toggle_md2docx_button_state`
(src/unnamed/part_002, lines 57-66): `toggleClass(cls, flag)` forces
the class's presence to `flag`, and `prop('disabled', !enabled)` sets
the property, so the previous state is fully overwritten. -/
def toggle_button_state (_prev : BtnClasses) (enabled danger : Bool) :
    BtnClasses :=
  { btn_primary := enabled && !danger
    btn_danger := enabled && danger
    btn_default := !enabled
    disabled := !enabled }

/-! ### Helper lemmas -/

/-- After any refresh the guard flag is set. -/
theorem refresh_rt_bound (s : FormRT) : (refresh_rt s).realtime_bound = true := by
  unfold refresh_rt
  split
  · assumption
  · rfl

/-- A refresh on a form whose guard flag is set does nothing. -/
theorem refresh_rt_of_bound (t : FormRT) (h : t.realtime_bound = true) :
    refresh_rt t = t := by
  unfold refresh_rt
  simp [h]

/-- Refreshing twice equals refreshing once. -/
theorem refresh_rt_idem (s : FormRT) :
    refresh_rt (refresh_rt s) = refresh_rt s :=
  refresh_rt_of_bound _ (refresh_rt_bound s)

/-! ### Claim theorems -/

/-- C1, counterexample: the Patent Workflow gate `update_step_buttons`
does not implement the claimed policy.  At the tuple
(is_running = false, is_done = true, success_count = 0,
has_required_inputs = true) the claimed policy disables rerun
(success count is 0), but the workflow gate enables it. -/
theorem C1_counterexample :
    update_step_buttons_for 0 1 (PrereqField.scalar (some "x")) ≠
      spec_button_policy false true 0 true := by
  decide

/-- C1, amended: the Md2docx gate `update_md2docx_buttons` computes
exactly the claimed policy for every input, while the Patent Workflow
gate `update_step_buttons` ignores the success counter and instead
enables run iff the prerequisite is non-empty and the step is neither
running nor done, enables rerun iff the prerequisite is non-empty and
the step is done but not running, and enables cancel iff the step is
running. -/
theorem C1_amended_gate :
    (∀ doc : Md2docxDoc,
      update_md2docx_buttons doc =
        spec_button_policy (doc.is_running_md2docx == 1)
          (doc.is_done_md2docx == 1) (doc.success_count_md2docx.getD 0)
          (jsTrimTruthy doc.md)) ∧
    (∀ (r d : Int) (f : PrereqField),
      update_step_buttons_for r d f =
        { run := step_has_value f && !(r == 1) && !(d == 1)
          rerun := step_has_value f && !(r == 1) && (d == 1)
          cancel := (r == 1) }) := by
  constructor
  · intro doc
    rfl
  · intro r d f
    rfl

/-- C2: for every input, neither gate ever enables the run and rerun
buttons simultaneously, and each gate enables cancel exactly when the
task's running flag equals 1. -/
theorem C2_gate_invariant :
    ∀ (doc : PatentabilityDoc) (r d : Int) (f : PrereqField),
      ((update_patentability_buttons doc).run &&
          (update_patentability_buttons doc).rerun) = false ∧
      (update_patentability_buttons doc).cancel =
        (doc.is_running_patentability == 1) ∧
      ((update_step_buttons_for r d f).run &&
          (update_step_buttons_for r d f).rerun) = false ∧
      (update_step_buttons_for r d f).cancel = (r == 1) := by
  intro doc r d f
  refine ⟨?_, ?_, ?_, ?_⟩
  · by_cases h : doc.success_count_patentability.getD 0 > 0 <;>
      simp [update_patentability_buttons, h]
  · by_cases h : doc.success_count_patentability.getD 0 > 0 <;>
      simp [update_patentability_buttons, h]
  · cases hd : (d == 1) <;> simp [update_step_buttons_for, hd]
  · rfl

/-- C3, counterexample: the MD To Docx clickable-column click handler
opens a signed URL whose generation timestamp is two hours in the past
(a timestamp the expiry predicate classifies as expired), because that
handler performs no expiry check. -/
theorem C3_counterexample :
    is_url_expired (fun _ => 0) (JSTime.num 1000) 7201000 = true ∧
    clickable_column_click_md2docx
        { s3_url := none
          signed_url := some "https://example.com/f.docx"
          signed_url_generated_at := JSTime.num 1000 } =
      ClickAction.openUrl "https://example.com/f.docx" := by
  constructor
  · rfl
  · rfl

/-- C3, amended: in the Claims To Docx variant (src/unnamed/part_010)
an entry whose signed URL is expired per `is_url_expired` is never
opened or fetched — both the clickable grid-column click handler and
the download-button handler direct the user to the refresh action
instead; the MD To Docx variant's grid-column handler performs no
expiry check. -/
theorem C3_amended_no_expired_open :
    ∀ (str_to_obj : String → Int) (nowMs : Int) (file : GeneratedFile),
      is_url_expired str_to_obj file.signed_url_generated_at nowMs = true →
      (clickable_column_click_c2d str_to_obj nowMs file).opens = false ∧
      (handle_download_click str_to_obj nowMs (some file)).opens = false := by
  intro p now f h
  constructor
  · cases hs : f.signed_url with
    | none => simp [clickable_column_click_c2d, hs, ClickAction.opens]
    | some url =>
      simp only [clickable_column_click_c2d, hs]
      split
      · rfl
      · simp [h, ClickAction.opens]
  · cases hs : f.signed_url with
    | none => simp [handle_download_click, hs, DownloadAction.opens]
    | some url =>
      simp only [handle_download_click, hs]
      split
      · rfl
      · simp [h, DownloadAction.opens]

/-- C3, witness for the amended theorem at a concrete expired entry. -/
theorem C3_amended_witness :
    is_url_expired (fun _ => 0) (JSTime.num 500) 7200500 = true ∧
    (clickable_column_click_c2d (fun _ => 0) 7200500
        { s3_url := none
          signed_url := some "https://example.com/a.docx"
          signed_url_generated_at := JSTime.num 500 }).opens = false ∧
    (handle_download_click (fun _ => 0) 7200500
        (some { s3_url := none
                signed_url := some "https://example.com/a.docx"
                signed_url_generated_at := JSTime.num 500 })).opens = false :=
  ⟨by rfl,
   (C3_amended_no_expired_open (fun _ => 0) 7200500
      { s3_url := none
        signed_url := some "https://example.com/a.docx"
        signed_url_generated_at := JSTime.num 500 } (by rfl)).1,
   (C3_amended_no_expired_open (fun _ => 0) 7200500
      { s3_url := none
        signed_url := some "https://example.com/a.docx"
        signed_url_generated_at := JSTime.num 500 } (by rfl)).2⟩

/-- C4, counterexample: when the cancel remote call fails (the awaited
`frappe.call` rejects), `cancel_step_backend` does not reload the
document — the reload sits inside the `try`, and the `catch` only
shows an alert. -/
theorem C4_counterexample :
    Effect.reload ∉ cancel_step_backend "Title2Scene" (Except.error none) := by
  decide

/-- C4, amended: both cancellation wrappers reload the document
whenever the cancel remote call resolves, regardless of the message it
returns; when the call rejects they show only an error alert and never
reload. -/
theorem C4_amended_reload :
    ∀ (label : String) (msg e : Option String),
      Effect.reload ∈ cancel_step_backend label (Except.ok msg) ∧
      Effect.reload ∉ cancel_step_backend label (Except.error e) ∧
      Effect.reload ∈ cancel_patentability_backend label (Except.ok msg) ∧
      Effect.reload ∉ cancel_patentability_backend label (Except.error e) := by
  intro label msg e
  refine ⟨?_, ?_, ?_, ?_⟩
  · cases msg <;> simp [cancel_step_backend]
  · simp [cancel_step_backend]
  · cases msg <;> simp [cancel_patentability_backend]
  · simp [cancel_patentability_backend]

/-- C5, counterexample: the Patent Workflow table-prerequisite check
accepts a table whose only row has an empty designated sub-field,
while the Patentability predicate `has_uploaded_file` (which matches
the claim) rejects it. -/
theorem C5_counterexample :
    step_has_value (PrereqField.table (some [{ file := none }])) = true ∧
    has_uploaded_file (some [{ file := none }]) = false := by
  constructor
  · rfl
  · rfl

/-- C5, amended: the Patentability predicate `has_uploaded_file` is
true iff the table is present and at least one row has its `file`
sub-field populated; the Patent Workflow gate's table check is true
iff the table is present and non-empty, regardless of any row's
sub-fields. -/
theorem C5_amended_table_prereq :
    ∀ (o : Option (List UploadRow)),
      (has_uploaded_file o = true ↔
        ∃ rows, o = some rows ∧ ∃ r ∈ rows, jsStrTruthy r.file = true) ∧
      (step_has_value (PrereqField.table o) = true ↔
        ∃ rows, o = some rows ∧ rows ≠ []) := by
  intro o
  constructor
  · cases o with
    | none => simp [has_uploaded_file]
    | some rows => simp [has_uploaded_file, List.any_eq_true]
  · cases o with
    | none => simp [step_has_value]
    | some rows =>
      simp [step_has_value, List.length_pos]

/-- C6: at a generation timestamp 61 minutes in the past every
embedded expiry check reports expired, and at 59 minutes in the past
every embedded expiry check reports valid — for `is_url_expired` on
both the numeric and the string timestamp form, and for the inline
millisecond check of `handle_download` in claims_to_docx/01.js. -/
theorem C6_expiry_boundary :
    is_url_expired (fun _ => 0) (JSTime.num 999996340000) 1000000000000 = true ∧
    is_url_expired (fun _ => 0) (JSTime.num 999996460000) 1000000000000 = false ∧
    is_url_expired (fun _ => 999996340000) (JSTime.str "2001-09-09 01:44:39")
      1000000000000 = true ∧
    is_url_expired (fun _ => 999996460000) (JSTime.str "2001-09-09 01:46:39")
      1000000000000 = false ∧
    claims_to_docx_expired 999996340000 1000000000000 = true ∧
    claims_to_docx_expired 999996460000 1000000000000 = false := by
  refine ⟨rfl, rfl, rfl, rfl, rfl, rfl⟩

/-- C7: if the form is dirty and the save step fails, both backend run
wrappers abort — the remote call is never issued and an error alert is
shown. -/
theorem C7_save_failure_aborts :
    ∀ (label : String) (e : Option String)
      (callResult : Except (Option String) Unit),
      Effect.remoteCall ∉ run_step_backend label true (Except.error e) callResult ∧
      (∃ m, Effect.alert m ∈ run_step_backend label true (Except.error e) callResult) ∧
      Effect.remoteCall ∉ run_md2docx_backend label true (Except.error e) callResult ∧
      (∃ m, Effect.alert m ∈ run_md2docx_backend label true (Except.error e) callResult) := by
  intro label e callResult
  refine ⟨?_, ?_, ?_, ?_⟩
  · simp [run_step_backend]
  · exact ⟨e.getD ("运行 " ++ label ++ " 失败，请查看日志"), by simp [run_step_backend]⟩
  · simp [run_md2docx_backend]
  · exact ⟨e.getD ("运行 " ++ label ++ " 失败，请查看日志"), by simp [run_md2docx_backend]⟩

/-- C8: starting from a fresh form instance, any positive number of
refreshes leaves exactly one registered done handler and one
registered failed handler (the guard flag makes re-binding a no-op),
so an incoming matching event produces exactly one
notification-and-reload. -/
theorem C8_bind_once :
    ∀ (k : Nat) (n : String),
      (refresh_rt^[k + 1] initialFormRT).done_handlers = 1 ∧
      (refresh_rt^[k + 1] initialFormRT).failed_handlers = 1 ∧
      handle_done_event (refresh_rt^[k + 1] initialFormRT) n n = 1 := by
  intro k n
  have hfix : refresh_rt^[k + 1] initialFormRT = refresh_rt initialFormRT := by
    induction k with
    | zero => rfl
    | succ m ih =>
      rw [Function.iterate_succ_apply' refresh_rt (m + 1) initialFormRT, ih,
        refresh_rt_idem]
  rw [hfix]
  refine ⟨rfl, rfl, ?_⟩
  simp [handle_done_event, refresh_rt, initialFormRT, bind_realtime_events]

/-- C9: a falsy `signed_url_generated_at` — missing, the empty string,
or the number 0 — makes `is_url_expired` report expired, for every
parser and every current time. -/
theorem C9_falsy_timestamp_expired :
    ∀ (str_to_obj : String → Int) (nowMs : Int),
      is_url_expired str_to_obj JSTime.undef nowMs = true ∧
      is_url_expired str_to_obj (JSTime.str "") nowMs = true ∧
      is_url_expired str_to_obj (JSTime.num 0) nowMs = true := by
  intro p now
  refine ⟨rfl, rfl, rfl⟩

/-- C10: after every call to the button-state toggle helper, exactly
one of the three style classes is present — `btn-primary` iff enabled
and not danger, `btn-danger` iff enabled and danger, `btn-default` iff
disabled — and the `disabled` property holds exactly when the enabled
argument is false, whatever the button's previous state. -/
theorem C10_toggle_button_style :
    ∀ (prev : BtnClasses) (enabled danger : Bool),
      ((if (toggle_button_state prev enabled danger).btn_primary then 1 else 0) +
        (if (toggle_button_state prev enabled danger).btn_danger then 1 else 0) +
        (if (toggle_button_state prev enabled danger).btn_default then 1 else 0)
          = 1) ∧
      (toggle_button_state prev enabled danger).btn_primary = (enabled && !danger) ∧
      (toggle_button_state prev enabled danger).btn_danger = (enabled && danger) ∧
      (toggle_button_state prev enabled danger).btn_default = !enabled ∧
      ((toggle_button_state prev enabled danger).disabled = true ↔
        enabled = false) := by
  intro prev enabled danger
  cases enabled <;> cases danger <;> simp [toggle_button_state]

end PatentHub
